import Mathlib

/-!
Verification development for the StockGPT stock-chat assistant
(`app.py`, `utils.py`, `config.py`).

The Python sources are shallowly embedded: strings are `String` (or
`List Char` where character scanning matters), `None` is `Option.none`,
numeric provider fields are `ℚ` or `Int`, and every external call that can
raise is an `Except String` outcome supplied through an environment record.
Rational arithmetic that must evaluate inside the kernel is carried out on
`Rat.num`/`Rat.den` with integer operations.
-/

set_option maxHeartbeats 1600000
set_option maxRecDepth 8192

namespace StockGPT

/-- Uppercase ASCII letter, the regex character class `[A-Z]`. -/
def isUpperAZ (c : Char) : Bool := 'A' ≤ c && c ≤ 'Z'

/-- Word character for the regex boundary `\b` (the ASCII part of `\w`). -/
def isWordChar (c : Char) : Bool :=
  isUpperAZ c || ('a' ≤ c && c ≤ 'z') || ('0' ≤ c && c ≤ '9') || c = '_'

/-- Boundary test `\b` after `k` consumed word characters of `cs`: the next
character must be absent or a non-word character. -/
def boundaryAfter (k : Nat) (cs : List Char) : Bool :=
  match cs.drop k with
  | [] => true
  | c :: _ => !isWordChar c

/-- Greedy backtracking match of `([A-Z]{1,5})\b` at the start of `cs`:
lengths are tried from `k` down to 1, as the regex engine does. -/
def tryUpperRun (cs : List Char) : Nat → Option (List Char)
  | 0 => none
  | k + 1 =>
    if (cs.take (k + 1)).length = k + 1 ∧ (cs.take (k + 1)).all isUpperAZ
        ∧ boundaryAfter (k + 1) cs then
      some (cs.take (k + 1))
    else tryUpperRun cs k

/-- Greedy backtracking match of `([A-Z]{1,5})\)` at the start of `cs`. -/
def tryParenRun (cs : List Char) : Nat → Option (List Char)
  | 0 => none
  | k + 1 =>
    if (cs.take (k + 1)).length = k + 1 ∧ (cs.take (k + 1)).all isUpperAZ
        ∧ (cs.drop (k + 1)).head? = some ')' then
      some (cs.take (k + 1))
    else tryParenRun cs k

/-- Scan of `re.search(r"\$([A-Z]{1,5})\b", text)` (rule 1 of
`extract_ticker_from_text`): at each `$` the group is attempted; on failure
the scan resumes with the next character. -/
def dollarSearch : List Char → Option (List Char)
  | [] => none
  | c :: cs =>
    if c = '$' then
      match tryUpperRun cs 5 with
      | some g => some g
      | none => dollarSearch cs
    else dollarSearch cs

/-- Scan of `re.search(r"\(([A-Z]{1,5})\)", text)` (rule 2). -/
def parenSearch : List Char → Option (List Char)
  | [] => none
  | c :: cs =>
    if c = '(' then
      match tryParenRun cs 5 with
      | some g => some g
      | none => parenSearch cs
    else parenSearch cs

/-- Scan of `re.findall(r"\b[A-Z]{1,5}\b", text)` (rule 3): the previous
character is tracked for the leading boundary, and after a match the scan
resumes past it.  `fuel` bounds the recursion by the text length; at least
one character is consumed per step, so `fuel = text.length` is enough. -/
def findTokensAux : Nat → Option Char → List Char → List (List Char)
  | 0, _, _ => []
  | _ + 1, _, [] => []
  | fuel + 1, prev, c :: cs =>
    let beforeOk := match prev with
      | none => true
      | some p => !isWordChar p
    if beforeOk && isUpperAZ c then
      match tryUpperRun (c :: cs) 5 with
      | some g => g :: findTokensAux fuel (some (g.getLastD c)) ((c :: cs).drop g.length)
      | none => findTokensAux fuel (some c) cs
    else findTokensAux fuel (some c) cs

/-- All matches of `\b[A-Z]{1,5}\b` in the text, in order. -/
def findTokens (text : List Char) : List (List Char) :=
  findTokensAux text.length none text

/-- Python `str.upper` on one character (ASCII range, the only case the
matched groups can contain). -/
def pyUpperChar (c : Char) : Char :=
  if 'a' ≤ c ∧ c ≤ 'z' then Char.ofNat (c.toNat - 32) else c

/-- Translation of `utils.extract_ticker_from_text`: rule 1 `\$([A-Z]{1,5})\b`,
then rule 2 `\(([A-Z]{1,5})\)`, then the first rule-3 token of length > 1;
every returned group goes through `.upper()`. -/
def extract_ticker_from_text (text : List Char) : Option (List Char) :=
  match dollarSearch text with
  | some g => some (g.map pyUpperChar)
  | none =>
    match parenSearch text with
    | some g => some (g.map pyUpperChar)
    | none =>
      match (findTokens text).filter (fun t => t.length > 1) with
      | t :: _ => some (t.map pyUpperChar)
      | [] => none

example : extract_ticker_from_text "$AAPL vs TSLA".toList = some "AAPL".toList := by decide
example : extract_ticker_from_text "What's up with AAPL?".toList = some "AAPL".toList := by decide
example : extract_ticker_from_text "Tell me about Tesla (TSLA) today".toList
    = some "TSLA".toList := by decide
example : extract_ticker_from_text "hello there".toList = none := by decide
example : extract_ticker_from_text "$ABCDEF AB".toList = some "AB".toList := by decide

/-! Numeric formatting.  CPython format specifiers are embedded with exact
rational rounding carried out on `Rat.num`/`Rat.den` by integer arithmetic
(the decimal values reaching these formatters are exactly representable, so
binary floating point introduces no deviation on them). -/

/-- Two-digit zero-padded rendering of `n % 100`-sized numbers. -/
def pad2 (n : Nat) : String := (if n < 10 then "0" else "") ++ toString n

/-- Digit grouping of `f"{n:,}"`: commas every three digits.  The input is the
reversed digit list, the output is reversed and grouped. -/
def group3 : List Char → List Char
  | a :: b :: c :: d :: rest => a :: b :: c :: ',' :: group3 (d :: rest)
  | l => l

/-- Rendering of `f"{n:,}"` for a natural number. -/
def commaGroup (n : Nat) : String :=
  String.mk ((group3 (toString n).toList.reverse).reverse)

/-- Rendering of `f"{x:,}"` for an integer. -/
def intComma (x : Int) : String :=
  (if x < 0 then "-" else "") ++ commaGroup x.natAbs

/-- Hundredths digit count of `|q| / d` rounded half up, i.e.
`⌊(|q|/d) * 100 + 1/2⌋` computed as integer arithmetic. -/
def hundredths (q : ℚ) (d : Nat) : Nat :=
  (200 * q.num.natAbs + q.den * d) / (2 * q.den * d)

/-- Rendering of `f"{q/d:.2f}"` (`d` a positive scaling constant such as
`1e12`; `d = 1` for a plain `f"{q:.2f}"`). -/
def fmtTwoDec (q : ℚ) (d : Nat) : String :=
  (if q.num < 0 then "-" else "")
    ++ toString (hundredths q d / 100) ++ "." ++ pad2 (hundredths q d % 100)

/-- Rendering of `f"{q:,.2f}"`: grouped integer part, two decimals. -/
def groupedTwoDec (q : ℚ) : String :=
  (if q.num < 0 then "-" else "")
    ++ commaGroup (hundredths q 1 / 100) ++ "." ++ pad2 (hundredths q 1 % 100)

/-- Hundredths of `q * 100` rounded half up, for `f"{x*100:.2f}"`. -/
def pctHundredths (q : ℚ) : Nat :=
  (20000 * q.num.natAbs + q.den) / (2 * q.den)

/-- Rendering of `f"{q*100:.2f}"`. -/
def pctTwoDec (q : ℚ) : String :=
  (if q.num < 0 then "-" else "")
    ++ toString (pctHundredths q / 100) ++ "." ++ pad2 (pctHundredths q % 100)

/-- Magnitude test `abs q ≥ d` on a rational, as integer arithmetic
(`q.den` is positive, so `|q.num| ≥ d * q.den ↔ |q| ≥ d`). -/
def qAbsGe (q : ℚ) (d : Nat) : Prop := (d : Int) * q.den ≤ q.num.natAbs

instance (q : ℚ) (d : Nat) : Decidable (qAbsGe q d) := by
  unfold qAbsGe; infer_instance

/-- Inner `fmt` of `utils.get_stock_info` on a numeric value:
magnitude-abbreviated currency text. -/
def fmtNum (x : ℚ) : String :=
  if qAbsGe x 1000000000000 then "$" ++ fmtTwoDec x 1000000000000 ++ "T"
  else if qAbsGe x 1000000000 then "$" ++ fmtTwoDec x 1000000000 ++ "B"
  else if qAbsGe x 1000000 then "$" ++ fmtTwoDec x 1000000 ++ "M"
  else "$" ++ fmtTwoDec x 1

/-- Inner `fmt` of `utils.get_stock_info`: `None` renders as `"N/A"`, numbers
by magnitude (the `str(x)` arm for non-numeric values is not exercised by the
numeric fields modelled here). -/
def fmt (x : Option ℚ) : String :=
  match x with
  | none => "N/A"
  | some q => fmtNum q

example : fmtNum 2500000000000 = "$2.50T" := by decide
example : fmtNum 3400000000 = "$3.40B" := by decide
example : fmtNum 7000000 = "$7.00M" := by decide
example : fmtNum 500 = "$500.00" := by decide
example : fmtNum 999999999999 = "$1000.00B" := by decide
example : commaGroup 1234567 = "1,234,567" := by decide

/-! Market-data client (`utils.py`). -/

/-- Provider info dictionary (`stock.info`): each field is absent when the
provider's record lacks the key. -/
structure InfoDict where
  longName : Option String
  shortName : Option String
  currentPrice : Option ℚ
  marketCap : Option Int
  longBusinessSummary : Option String
  sector : Option String
  industry : Option String
  symbol : Option String
  trailingPE : Option ℚ
  dividendYield : Option ℚ
deriving DecidableEq

/-- Empty info dictionary, the `{}` that replaces a `None` first fetch. -/
def InfoDict.emptyDict : InfoDict :=
  ⟨none, none, none, none, none, none, none, none, none, none⟩

/-- Environment of one `get_stock_info` call: the three provider interactions
it may perform, each able to raise (`Except.error`). -/
structure InfoEnv where
  /-- First `stock.info` on the uppercased query (may be `None`, guarded by
  `or {}` in the source). -/
  tickerInfo : Except String (Option InfoDict)
  /-- `yf.search(query)`: top candidate symbol, `none` when no candidates. -/
  search : Except String (Option String)
  /-- `stock.info` of the refetched best-match ticker; a `None` here is NOT
  guarded in the source and makes `info.get` raise. -/
  refetchInfo : Except String (Option InfoDict)

/-- Error text `f"Couldn't fetch info for '{query}'. Error: {e}"`. -/
def infoErr (query e : String) : String :=
  "Couldn't fetch info for '" ++ query ++ "'. Error: " ++ e

/-- Python `a or b` where `a` is an optional string: `None` and `""` are
falsy. -/
def strOr (a : Option String) (b : String) : String :=
  match a with
  | some s => if s = "" then b else s
  | none => b

/-- Python `"sep".join(parts)`. -/
def joinSep (sep : String) : List String → String
  | [] => ""
  | [a] => a
  | a :: b :: rest => a ++ sep ++ joinSep sep (b :: rest)

/-- Summary body truncated to 1500 characters with an ellipsis. -/
def truncSummary (s : String) : String :=
  s.take 1500 ++ (if s.length > 1500 then "..." else "")

/-- Lines assembled by `get_stock_info` once an info dictionary is in hand. -/
def formatInfo (query : String) (info : InfoDict) : String :=
  joinSep "\n"
    [ "**" ++ (strOr info.longName (strOr info.shortName query)
        ++ (" (" ++ (info.symbol.getD query.toUpper ++ ")**"))),
      "Sector: " ++ info.sector.getD "N/A" ++ " • Industry: " ++ info.industry.getD "N/A",
      "Price: " ++ fmt info.currentPrice,
      "Market Cap: " ++ fmt (info.marketCap.map (fun i => (i : ℚ))),
      "",
      "Summary:",
      truncSummary (info.longBusinessSummary.getD "") ]

/-- Translation of `utils.get_stock_info`: ticker lookup, company-name
fallback search with refetch, formatted summary; the `try/except` around the
whole body turns any raise into the `infoErr` string. -/
def get_stock_info (env : InfoEnv) (query : String) : String :=
  match env.tickerInfo with
  | .error e => infoErr query e
  | .ok infoOpt =>
    let info := infoOpt.getD InfoDict.emptyDict
    if info.shortName.isNone then
      match env.search with
      | .error e => infoErr query e
      | .ok none => formatInfo query info
      | .ok (some _) =>
        match env.refetchInfo with
        | .error e => infoErr query e
        | .ok none =>
          -- the refetched `stock.info` was `None`; `info.get(...)` raises
          infoErr query "'NoneType' object has no attribute 'get'"
        | .ok (some info2) => formatInfo query info2
    else formatInfo query info

/-- One row of the provider's OHLCV time series. -/
structure OHLCVRow where
  openPrice : ℚ
  highPrice : ℚ
  lowPrice : ℚ
  closePrice : ℚ
  volume : ℚ
deriving DecidableEq

/-- Raw frame returned by `stock.history`: the dates live in the index, each
paired with its data row. -/
structure RawHistory where
  rows : List (Nat × OHLCVRow)
deriving DecidableEq

/-- Frame after `df.reset_index()`: the index dates become an explicit
`Date` column beside the data columns. -/
structure ResetHistory where
  dateCol : List Nat
  dataRows : List OHLCVRow
deriving DecidableEq

/-- Translation of `utils.get_stock_history`: `None` on raise, on a `None`
frame, or on an empty frame; otherwise the frame with the index materialized
as a column. -/
def get_stock_history (fetch : Except String (Option RawHistory)) : Option ResetHistory :=
  match fetch with
  | .error _ => none
  | .ok none => none
  | .ok (some df) =>
    if df.rows = [] then none
    else some ⟨df.rows.map Prod.fst, df.rows.map Prod.snd⟩

/-- One provider news entry; every field is read with a `.get` default. -/
structure NewsItem where
  title : Option String
  publisher : Option String
  link : Option String
deriving DecidableEq

/-- Python slice `xs[:count]` for an `int` count: negative counts cut from
the end. -/
def pyTake {α : Type} (xs : List α) (count : Int) : List α :=
  if 0 ≤ count then xs.take count.toNat
  else xs.take ((xs.length : Int) + count).toNat

/-- Title truncation of `get_latest_news`: beyond 300 characters, keep 297
and append an ellipsis. -/
def truncTitle (t : String) : String :=
  if t.length > 300 then t.take 297 ++ "..." else t

/-- One formatted line of `get_latest_news`
(`f"{i}. **{title}**  \nSource: {publisher}  \n{link}"`). -/
def formatNewsItem (i : Nat) (n : NewsItem) : String :=
  toString i ++ ". **" ++ truncTitle (n.title.getD "No title") ++ "**  \nSource: "
    ++ n.publisher.getD "Unknown" ++ "  \n" ++ n.link.getD ""

/-- Translation of `utils.get_latest_news`: the provider attribute may raise
or be `None` (guarded by `or []`); an empty list yields the fixed literal;
otherwise the first `count` items are numbered from 1 and joined. -/
def get_latest_news (fetch : Except String (Option (List NewsItem))) (count : Int) : String :=
  match fetch with
  | .error e => "Error fetching news: " ++ e
  | .ok newsOpt =>
    match newsOpt.getD [] with
    | [] => "No recent news found."
    | n :: ns =>
      joinSep "\n\n"
        ((List.enumFrom 1 (pyTake (n :: ns) count)).map (fun p => formatNewsItem p.1 p.2))

/-! Configuration (`config.py`). -/

/-- ValueError text raised when the key is missing. -/
def keyErrorMsg : String :=
  "🚨 OPENAI_API_KEY not found.\n👉 Create a .env file in your project root with the line:\nOPENAI_API_KEY=sk-your_real_openai_api_key_here"

/-- Translation of the `config.py` startup check: `os.getenv` result in,
loaded key out; a falsy key (absent or empty) raises `ValueError`. -/
def configInit (envKey : Option String) : Except String String :=
  match envKey with
  | some k => if k ≠ "" then .ok k else .error keyErrorMsg
  | none => .error keyErrorMsg

/-! Presentation-side formatting of `app.py`. -/

/-- Translation of `safe_fmt` from `app.py`: fallback on `None`; percent
fields are multiplied by 100 and suffixed `%`; other numerics are grouped
with two decimals.  (The `str(x)` arm and the `except` arm are not exercised
by the numeric provider fields modelled here.) -/
def safe_fmt (x : Option ℚ) (fallback : String) (pct : Bool) : String :=
  match x with
  | none => fallback
  | some q => if pct then pctTwoDec q ++ "%" else groupedTwoDec q

/-- Market-cap tile text from `app.py`: Python truthiness means both a `None`
and a zero market cap fall through to `"N/A"`. -/
def market_cap_str (marketCap : Option Int) : String :=
  match marketCap with
  | some x =>
    if x ≠ 0 then
      if x ≥ 1000000000000 then "$" ++ fmtTwoDec (x : ℚ) 1000000000000 ++ "T"
      else if x ≥ 1000000000 then "$" ++ fmtTwoDec (x : ℚ) 1000000000 ++ "B"
      else if x ≥ 1000000 then "$" ++ fmtTwoDec (x : ℚ) 1000000 ++ "M"
      else "$" ++ intComma x
    else "N/A"
  | none => "N/A"

/-- Current-price tile (`f"${safe_fmt(info.get('currentPrice'), 'N/A')}"`). -/
def priceTile (info : InfoDict) : String := "$" ++ safe_fmt info.currentPrice "N/A" false

/-- P/E tile. -/
def peTile (info : InfoDict) : String := safe_fmt info.trailingPE "N/A" false

/-- Market-cap tile. -/
def marketCapTile (info : InfoDict) : String := market_cap_str info.marketCap

/-- Dividend-yield tile: its fallback argument in the source is `"0.00%"`. -/
def dividendTile (info : InfoDict) : String := safe_fmt info.dividendYield "0.00%" true

/-! Per-turn orchestration of `app.py`. -/

/-- Chat roles. -/
inductive Role where
  | user
  | assistant
  | system
deriving DecidableEq

/-- One entry of the session message log. -/
structure ChatMessage where
  role : Role
  content : String
deriving DecidableEq

/-- Greeting placed in the log when the session starts. -/
def greeting : ChatMessage :=
  ⟨Role.assistant,
   "Hi! I’m StockGPT. Ask me about any stock ticker (e.g., AAPL, TSLA, INFY) or market trend 📊"⟩

/-- Outcomes of the external calls one turn can make. -/
structure TurnEnv where
  /-- `yf.search(user_input)` in the resolver fallback: the quotes' symbols
  in rank order, or a raise. -/
  resolverSearch : Except String (List String)
  /-- Environment of the `get_stock_info` call. -/
  infoEnv : InfoEnv
  /-- Outcome of the `stock.history` fetch. -/
  historyFetch : Except String (Option RawHistory)
  /-- Outcome of the `stock.news` fetch. -/
  newsFetch : Except String (Option (List NewsItem))
  /-- Primary chat completion: reply text, or a raise (the traceback the
  source appends is folded into the error text). -/
  llm : Except String String

/-- Resolver step: an extracted ticker wins; otherwise the top search
candidate; an empty candidate list or a raised search leaves `none`. -/
def resolveTicker (ticker : Option String) (search : Except String (List String)) :
    Option String :=
  match ticker with
  | some t => some t
  | none =>
    match search with
    | .ok (q :: _) => some q
    | _ => none

/-- Assistant reply for the turn: the completion text, or the visible error
string a raised call is converted into. -/
def aiReply (llm : Except String String) : String :=
  match llm with
  | .ok r => r
  | .error e => "⚠️ Error generating response from OpenAI: " ++ e

/-- Prompt composed for the primary completion: data sections appear only
when present and non-empty (Python truthiness). -/
def turnPrompt (user_input : String) (resolved : Option String)
    (stock_data news_md : Option String) : String :=
  "You are a helpful and careful financial assistant. Be explicit about what is an opinion vs fact. Don't give trading advice (no 'buy' or 'sell' calls). When uncertain, say 'I don't know' and recommend the user verify facts.\n\nUser question: "
    ++ user_input ++ "\n\n"
    ++ (match resolved, stock_data with
        | some t, some sd =>
          if sd ≠ "" then "Live company summary for " ++ t ++ ":\n" ++ sd ++ "\n\n" else ""
        | _, _ => "")
    ++ (match resolved, news_md with
        | some t, some nm =>
          if nm ≠ "" then "Recent headlines for " ++ t ++ ":\n" ++ nm ++ "\n\n" else ""
        | _, _ => "")

/-- Leading-segment test on character lists. -/
def listStarts : List Char → List Char → Bool
  | [], _ => true
  | _ :: _, [] => false
  | p :: ps, c :: cs => p = c && listStarts ps cs

/-- Case-insensitive prefix test `s.lower().startswith(p)` for the sentiment
gate, on ASCII lowercase prefixes. -/
def lowerStarts (p : String) (s : String) : Bool :=
  listStarts p.toList (s.toList.map fun c =>
    if 'A' ≤ c ∧ c ≤ 'Z' then Char.ofNat (c.toNat + 32) else c)

/-- Everything observable about one executed turn. -/
structure TurnOutput where
  messages : List ChatMessage
  warnings : List String
  /-- Market Data Client operations invoked this turn. -/
  marketCalls : List String
  /-- Primary chat completions attempted this turn. -/
  llmCalls : Nat
  /-- Whether the sentiment completion was attempted. -/
  sentimentCalled : Bool
  resolved : Option String
  stock_data : Option String
  history_df : Option ResetHistory
  news_md : Option String
  prompt : String

/-- Translation of the `if user_input:` turn handler of `app.py`: append the
user entry, extract/resolve, fetch the three data blocks when a symbol is in
hand (warn otherwise), compose the prompt, call the model, append the
assistant entry.  The display-only sections that follow mutate nothing but
the sentiment gate, which is recorded.  (The `try/except` around the three
fetches is dead code — each fetch already catches internally — and the
sentiment completion's own outcome changes no recorded state.) -/
def runTurn (env : TurnEnv) (messages : List ChatMessage) (user_input : String) : TurnOutput :=
  let messages1 := messages ++ [⟨Role.user, user_input⟩]
  let ticker := (extract_ticker_from_text user_input.toList).map (fun l => String.mk l)
  let resolved := resolveTicker ticker env.resolverSearch
  let stock_data := resolved.map (fun t => get_stock_info env.infoEnv t)
  let history_df := match resolved with
    | some _ => get_stock_history env.historyFetch
    | none => none
  let news_md := resolved.map (fun _ => get_latest_news env.newsFetch 5)
  { messages := messages1 ++ [⟨Role.assistant, aiReply env.llm⟩]
    warnings := match resolved with
      | some _ => []
      | none => ["❌ Could not resolve any stock symbol from input."]
    marketCalls := match resolved with
      | some _ => ["profile", "history", "news"]
      | none => []
    llmCalls := 1
    sentimentCalled := match resolved, news_md with
      | some _, some nm =>
        nm ≠ "" && !lowerStarts "no recent news" nm && !lowerStarts "error" nm
      | _, _ => false
    resolved := resolved
    stock_data := stock_data
    history_df := history_df
    news_md := news_md
    prompt := turnPrompt user_input resolved stock_data news_md }

/-- Turn environment in which every provider interaction comes back empty
and the resolver search returns no candidates. -/
def sampleEnvNoResolve : TurnEnv :=
  { resolverSearch := .ok []
    infoEnv := ⟨.ok none, .ok none, .ok none⟩
    historyFetch := .ok none
    newsFetch := .ok none
    llm := .ok "General market commentary." }

/-- Sample news entries used for concrete evaluations. -/
def newsA : NewsItem := ⟨some "Alpha earnings beat", some "Reuters", some "http://a"⟩

/-- Second sample news entry. -/
def newsB : NewsItem := ⟨some "Beta guidance cut", some "AP", some "http://b"⟩

/-- Sample OHLCV row. -/
def sampleRow : OHLCVRow := ⟨1, 2, 1, 2, 100⟩

/-- Sample raw history frame with two dated rows. -/
def sampleHistory : RawHistory := ⟨[(0, sampleRow), (1, sampleRow)]⟩

/-- Strings differing in their first character differ. -/
theorem ne_of_head_chars (a b : String) (c d : Char) (ha : a.data.head? = some c)
    (hb : b.data.head? = some d) (hcd : c ≠ d) : a ≠ b := by
  intro e
  rw [e, hb] at ha
  exact hcd (Option.some.inj ha.symm)

/-! Theorems for the claims. -/

/-- C9: if the provider API key is absent from the process environment at
startup, initialization raises with the descriptive message telling how to
supply the key, and the program can only proceed past initialization with a
non-empty key in hand. -/
theorem c9_missing_key_fatal :
    configInit none = .error
      "🚨 OPENAI_API_KEY not found.\n👉 Create a .env file in your project root with the line:\nOPENAI_API_KEY=sk-your_real_openai_api_key_here"
  ∧ (∀ o k, configInit o = .ok k → o = some k ∧ k ≠ "") := by
  constructor
  · rfl
  · intro o k h
    match o with
    | none => simp [configInit, keyErrorMsg] at h
    | some s =>
      by_cases hs : s = ""
      · simp [configInit, hs, keyErrorMsg] at h
      · simp only [configInit, if_pos hs] at h
        cases h
        exact ⟨rfl, hs⟩

/-- Witness for C9: a present, non-empty key passes initialization. -/
theorem c9_witness : some "sk-test" = some "sk-test" ∧ "sk-test" ≠ "" :=
  c9_missing_key_fatal.2 (some "sk-test") "sk-test" rfl

/-- C8: `get_stock_history` returns `none` when the provider raises, returns
no frame, or returns an empty frame; otherwise it returns the rows with the
index dates materialized as an explicit column. -/
theorem c8_history_contract :
    (∀ e, get_stock_history (.error e) = none)
  ∧ get_stock_history (.ok none) = none
  ∧ (∀ df : RawHistory, df.rows = [] → get_stock_history (.ok (some df)) = none)
  ∧ (∀ df : RawHistory, df.rows ≠ [] →
      get_stock_history (.ok (some df))
        = some ⟨df.rows.map Prod.fst, df.rows.map Prod.snd⟩) := by
  refine ⟨fun e => rfl, rfl, fun df h => ?_, fun df h => ?_⟩
  · simp [get_stock_history, h]
  · simp [get_stock_history, h]

/-- Witness for C8 on a concrete two-row frame. -/
theorem c8_witness :
    get_stock_history (.ok (some sampleHistory))
      = some ⟨[0, 1], [sampleRow, sampleRow]⟩ :=
  c8_history_contract.2.2.2 sampleHistory (by decide)

/-- C3 counterexample: with no dividend yield reported, the dividend-yield
tile renders the literal `"0.00%"`, not `"N/A"` as claimed. -/
theorem c3_counterexample :
    dividendTile InfoDict.emptyDict = "0.00%" ∧ "0.00%" ≠ "N/A" :=
  ⟨rfl, by decide⟩

/-- C3 (amended): a missing value renders as the tile's fallback — `"N/A"`
for the P/E and market-cap tiles (the price tile embeds it as `"$N/A"`), but
the dividend-yield tile's fallback is the literal `"0.00%"`. -/
theorem c3_tile_fallbacks :
    (∀ (fallback : String) (b : Bool), safe_fmt none fallback b = fallback)
  ∧ (∀ info : InfoDict, info.currentPrice = none → priceTile info = "$N/A")
  ∧ (∀ info : InfoDict, info.trailingPE = none → peTile info = "N/A")
  ∧ (∀ info : InfoDict, info.marketCap = none → marketCapTile info = "N/A")
  ∧ (∀ info : InfoDict, info.dividendYield = none → dividendTile info = "0.00%") := by
  refine ⟨fun f b => rfl, fun i h => ?_, fun i h => ?_, fun i h => ?_, fun i h => ?_⟩ <;>
    simp [priceTile, peTile, marketCapTile, dividendTile, safe_fmt, market_cap_str, h]

/-- Witness for C3 on the all-absent info dictionary. -/
theorem c3_witness :
    safe_fmt none "N/A" false = "N/A"
  ∧ priceTile InfoDict.emptyDict = "$N/A"
  ∧ peTile InfoDict.emptyDict = "N/A"
  ∧ marketCapTile InfoDict.emptyDict = "N/A"
  ∧ dividendTile InfoDict.emptyDict = "0.00%" :=
  ⟨c3_tile_fallbacks.1 "N/A" false,
   c3_tile_fallbacks.2.1 _ rfl,
   c3_tile_fallbacks.2.2.1 _ rfl,
   c3_tile_fallbacks.2.2.2.1 _ rfl,
   c3_tile_fallbacks.2.2.2.2 _ rfl⟩

/-- C6 counterexample: a zero market cap is falsy in Python, so the tile
renders `"N/A"` instead of the raw grouped form `"$0"` the claim's "smaller
values" policy prescribes. -/
theorem c6_counterexample :
    market_cap_str (some 0) = "N/A" ∧ market_cap_str (some 0) ≠ "$0" := by
  exact ⟨rfl, by decide⟩

/-- C6 (amended): for every positive market cap the tile follows the
magnitude policy (≥1e12 → T, ≥1e9 → B, ≥1e6 → M, else grouped integer), with
the claimed examples and threshold boundaries; `utils.fmt` renders 500 as
`"$500.00"`; zero (like `None`) renders as `"N/A"` in the tile. -/
theorem c6_magnitude_bands :
    (∀ x : Int, 0 < x →
        (1000000000000 ≤ x →
          market_cap_str (some x) = "$" ++ fmtTwoDec (x : ℚ) 1000000000000 ++ "T")
      ∧ (1000000000 ≤ x → x < 1000000000000 →
          market_cap_str (some x) = "$" ++ fmtTwoDec (x : ℚ) 1000000000 ++ "B")
      ∧ (1000000 ≤ x → x < 1000000000 →
          market_cap_str (some x) = "$" ++ fmtTwoDec (x : ℚ) 1000000 ++ "M")
      ∧ (x < 1000000 → market_cap_str (some x) = "$" ++ intComma x))
  ∧ market_cap_str (some 2500000000000) = "$2.50T"
  ∧ market_cap_str (some 3400000000) = "$3.40B"
  ∧ market_cap_str (some 7000000) = "$7.00M"
  ∧ market_cap_str (some 500) = "$500"
  ∧ fmtNum 500 = "$500.00"
  ∧ market_cap_str (some 1000000000000) = "$1.00T"
  ∧ market_cap_str (some 999999999999) = "$1000.00B"
  ∧ market_cap_str (some 1000000000) = "$1.00B"
  ∧ market_cap_str (some 999999999) = "$1000.00M"
  ∧ market_cap_str (some 1000000) = "$1.00M"
  ∧ market_cap_str (some 999999) = "$999,999" := by
  refine ⟨?_, by decide, by decide, by decide, by decide, by decide, by decide, by decide,
    by decide, by decide, by decide, by decide⟩
  intro x hx
  have hx0 : x ≠ 0 := by omega
  refine ⟨fun h12 => ?_, fun h9 h12 => ?_, fun h6 h9 => ?_, fun h6 => ?_⟩ <;>
    simp only [market_cap_str, if_pos hx0]
  · rw [if_pos (by omega : x ≥ 1000000000000)]
  · rw [if_neg (by omega : ¬ x ≥ 1000000000000), if_pos (by omega : x ≥ 1000000000)]
  · rw [if_neg (by omega : ¬ x ≥ 1000000000000), if_neg (by omega : ¬ x ≥ 1000000000),
      if_pos (by omega : x ≥ 1000000)]
  · rw [if_neg (by omega : ¬ x ≥ 1000000000000), if_neg (by omega : ¬ x ≥ 1000000000),
      if_neg (by omega : ¬ x ≥ 1000000)]

/-- Witness for C6: one application per band. -/
theorem c6_witness :
    market_cap_str (some 2000000000000)
      = "$" ++ fmtTwoDec ((2000000000000 : Int) : ℚ) 1000000000000 ++ "T"
  ∧ market_cap_str (some 5000000000)
      = "$" ++ fmtTwoDec ((5000000000 : Int) : ℚ) 1000000000 ++ "B"
  ∧ market_cap_str (some 8000000)
      = "$" ++ fmtTwoDec ((8000000 : Int) : ℚ) 1000000 ++ "M"
  ∧ market_cap_str (some 12345) = "$" ++ intComma 12345 :=
  ⟨(c6_magnitude_bands.1 2000000000000 (by decide)).1 (by decide),
   (c6_magnitude_bands.1 5000000000 (by decide)).2.1 (by decide) (by decide),
   (c6_magnitude_bands.1 8000000 (by decide)).2.2.1 (by decide) (by decide),
   (c6_magnitude_bands.1 12345 (by decide)).2.2.2 (by decide)⟩

/-- C5: empty or absent provider news yields the exact no-news literal; a
raised call yields the error string with its prefix; otherwise the result is
the numbered join of at most `count` items, where titles beyond 300
characters are cut to 297 plus an ellipsis. -/
theorem c5_news_formatting :
    (∀ c : Int, get_latest_news (.ok none) c = "No recent news found."
      ∧ get_latest_news (.ok (some [])) c = "No recent news found.")
  ∧ (∀ (e : String) (c : Int), get_latest_news (.error e) c = "Error fetching news: " ++ e)
  ∧ (∀ (news : List NewsItem) (c : Int), news ≠ [] → 0 ≤ c →
      get_latest_news (.ok (some news)) c
        = joinSep "\n\n"
            ((List.enumFrom 1 (news.take c.toNat)).map (fun p => formatNewsItem p.1 p.2))
      ∧ (news.take c.toNat).length ≤ c.toNat)
  ∧ (∀ t : String, t.length > 300 → truncTitle t = t.take 297 ++ "...")
  ∧ (∀ t : String, ¬ t.length > 300 → truncTitle t = t) := by
  refine ⟨fun c => ⟨rfl, rfl⟩, fun e c => rfl, fun news c hne hc => ?_, fun t h => ?_,
    fun t h => ?_⟩
  · rcases news with _ | ⟨n, ns⟩
    · exact absurd rfl hne
    · exact ⟨by simp [get_latest_news, pyTake, hc], List.length_take_le _ _⟩
  · simp [truncTitle, h]
  · simp [truncTitle, h]

/-- Witness for C5: the formatted join on two items, truncation at 301
characters, identity below the budget. -/
theorem c5_witness :
    get_latest_news (.ok (some [newsA, newsB])) 5
      = joinSep "\n\n"
          ((List.enumFrom 1 ([newsA, newsB].take (5 : Int).toNat)).map
            (fun p => formatNewsItem p.1 p.2))
  ∧ truncTitle (String.mk (List.replicate 301 'a'))
      = (String.mk (List.replicate 301 'a')).take 297 ++ "..."
  ∧ truncTitle "short title" = "short title" :=
  ⟨(c5_news_formatting.2.2.1 [newsA, newsB] 5 (by decide) (by decide)).1,
   c5_news_formatting.2.2.2.1 _ (by decide),
   c5_news_formatting.2.2.2.2 _ (by decide)⟩

/-- C10 counterexample: with a two-item news list and `count = -1 ≤ 0`,
Python slicing keeps the first item, so the result is a formatted line,
not the empty string the claim prescribes for every `count ≤ 0`. -/
theorem c10_counterexample :
    (-1 : Int) ≤ 0
  ∧ get_latest_news (.ok (some [newsA, newsB])) (-1) ≠ ""
  ∧ get_latest_news (.ok (some [newsA, newsB])) (-1) ≠ "No recent news found." := by
  refine ⟨by decide, by decide, by decide⟩

/-- C10 (amended): with non-empty provider news, `count = 0` returns the
empty string (zero items joined); negative counts instead slice from the end
of the list; and the no-news literal is produced only when the provider list
is empty or absent. -/
theorem c10_zero_count :
    (∀ news : List NewsItem, news ≠ [] → get_latest_news (.ok (some news)) 0 = "")
  ∧ (∀ (fetch : Except String (Option (List NewsItem))) (c : Int),
      get_latest_news fetch c = "No recent news found." →
        fetch = .ok none ∨ fetch = .ok (some [])) := by
  constructor
  · intro news hne
    rcases news with _ | ⟨n, ns⟩
    · exact absurd rfl hne
    · simp [get_latest_news, pyTake, joinSep]
  · intro fetch c h
    match fetch with
    | .error e =>
      exact absurd h (ne_of_head_chars _ _ 'E' 'N' rfl rfl (by decide))
    | .ok none => exact Or.inl rfl
    | .ok (some []) => exact Or.inr rfl
    | .ok (some (n :: ns)) =>
      exfalso
      simp only [get_latest_news, Option.getD_some] at h
      rcases hl : pyTake (n :: ns) c with _ | ⟨m, ms⟩
      · rw [hl] at h
        exact absurd h (by decide)
      · rw [hl] at h
        simp only [List.enumFrom, List.map] at h
        rcases ms with _ | ⟨m2, ms2⟩
        · exact absurd h (ne_of_head_chars _ _ '1' 'N' rfl rfl (by decide))
        · exact absurd h (ne_of_head_chars _ _ '1' 'N' rfl rfl (by decide))

/-- Witness for C10: zero count on a singleton list, and the literal arising
from an empty provider list. -/
theorem c10_witness :
    get_latest_news (.ok (some [newsA])) 0 = ""
  ∧ ((Except.ok (some []) : Except String (Option (List NewsItem))) = .ok none
      ∨ (Except.ok (some []) : Except String (Option (List NewsItem))) = .ok (some [])) :=
  ⟨c10_zero_count.1 [newsA] (by decide),
   c10_zero_count.2 (.ok (some [])) 7 rfl⟩

/-- Reassociation: a string built as `((p ++ a) ++ b) ++ c` has prefix `p`. -/
theorem exists_starts (p a b c : String) : ∃ r, ((p ++ a) ++ b) ++ c = p ++ r :=
  ⟨a ++ (b ++ c), by rw [String.append_assoc, String.append_assoc]⟩

/-- Summary text always has the `"**"` prefix of its first line. -/
theorem formatInfo_starts (query : String) (info : InfoDict) :
    ∃ r, formatInfo query info = "**" ++ r :=
  exists_starts "**" _ _ _

/-- Error text always has the fixed `infoErr` prefix. -/
theorem infoErr_starts (query e : String) :
    ∃ r, infoErr query e = "Couldn't fetch info for '" ++ r :=
  exists_starts "Couldn't fetch info for '" _ _ _

/-- C7: for every query and every behaviour of the provider lookup, fallback
search, and refetch — including raises at each point — `get_stock_info`
returns either the formatted summary (prefix `"**"`) or an error description
string (prefix `"Couldn't fetch info for '"`); it never raises past its
boundary. -/
theorem c7_info_total : ∀ (env : InfoEnv) (query : String),
    (∃ r, get_stock_info env query = "**" ++ r)
  ∨ (∃ r, get_stock_info env query = "Couldn't fetch info for '" ++ r) := by
  intro env query
  rcases h1 : env.tickerInfo with e | iOpt
  · exact Or.inr (by rw [get_stock_info, h1]; exact infoErr_starts query e)
  · simp only [get_stock_info, h1]
    by_cases h2 : (iOpt.getD InfoDict.emptyDict).shortName.isNone
    · rw [if_pos h2]
      rcases h3 : env.search with e | sOpt
      · exact Or.inr (infoErr_starts query e)
      · rcases sOpt with _ | s
        · exact Or.inl (formatInfo_starts query _)
        · rcases h4 : env.refetchInfo with e | rOpt
          · exact Or.inr (infoErr_starts query e)
          · rcases rOpt with _ | info2
            · exact Or.inr (infoErr_starts query _)
            · exact Or.inl (formatInfo_starts query info2)
    · rw [if_neg h2]
      exact Or.inl (formatInfo_starts query _)

/-- C1 counterexample: a turn whose resolution fails (the warning is shown)
still appends two entries — the log goes from 1 to 3 entries, not to 2 as
the claim's exception case states. -/
theorem c1_counterexample :
    (runTurn sampleEnvNoResolve [greeting] "hello there").resolved = none
  ∧ (runTurn sampleEnvNoResolve [greeting] "hello there").warnings
      = ["❌ Could not resolve any stock symbol from input."]
  ∧ (runTurn sampleEnvNoResolve [greeting] "hello there").messages.length = 3
  ∧ (runTurn sampleEnvNoResolve [greeting] "hello there").messages.length ≠ 2 := by
  exact ⟨rfl, rfl, rfl, by decide⟩

/-- C1 (amended): on every turn — resolution failure included — the message
log grows by exactly two entries: the user entry followed by the assistant
entry carrying the completion text or the visible error string. -/
theorem c1_turn_appends_two :
    ∀ (env : TurnEnv) (msgs : List ChatMessage) (input : String),
    (runTurn env msgs input).messages
      = msgs ++ [⟨Role.user, input⟩, ⟨Role.assistant, aiReply env.llm⟩]
  ∧ (runTurn env msgs input).messages.length = msgs.length + 2 := by
  intro env msgs input
  constructor
  · show (msgs ++ [⟨Role.user, input⟩]) ++ [⟨Role.assistant, aiReply env.llm⟩] = _
    simp
  · show ((msgs ++ [(⟨Role.user, input⟩ : ChatMessage)])
      ++ [(⟨Role.assistant, aiReply env.llm⟩ : ChatMessage)]).length = _
    simp

/-- C2 counterexample: in a resolution-failure turn the primary completion —
a downstream call in the turn's control flow — is still attempted (once, not
zero times), against the claim's "no downstream calls are attempted". -/
theorem c2_counterexample :
    (runTurn sampleEnvNoResolve [greeting] "hello there").resolved = none
  ∧ (runTurn sampleEnvNoResolve [greeting] "hello there").warnings
      = ["❌ Could not resolve any stock symbol from input."]
  ∧ (runTurn sampleEnvNoResolve [greeting] "hello there").llmCalls = 1
  ∧ (runTurn sampleEnvNoResolve [greeting] "hello there").llmCalls ≠ 0 := by
  exact ⟨rfl, rfl, rfl, by decide⟩

/-- C2 (amended): when the extractor finds nothing and the resolver search
yields no candidate or raises, the turn shows the could-not-resolve warning,
makes no Market Data Client call (profile, history and news all stay
absent), and skips the sentiment completion; the primary completion alone is
still attempted. -/
theorem c2_resolution_failure_frame :
    ∀ (env : TurnEnv) (msgs : List ChatMessage) (input : String),
    extract_ticker_from_text input.toList = none →
    (env.resolverSearch = .ok [] ∨ ∃ e, env.resolverSearch = .error e) →
      (runTurn env msgs input).resolved = none
    ∧ (runTurn env msgs input).warnings = ["❌ Could not resolve any stock symbol from input."]
    ∧ (runTurn env msgs input).marketCalls = []
    ∧ (runTurn env msgs input).stock_data = none
    ∧ (runTurn env msgs input).history_df = none
    ∧ (runTurn env msgs input).news_md = none
    ∧ (runTurn env msgs input).sentimentCalled = false
    ∧ (runTurn env msgs input).llmCalls = 1 := by
  intro env msgs input hext hsearch
  have hres : resolveTicker
      ((extract_ticker_from_text input.toList).map (fun l => String.mk l))
      env.resolverSearch = none := by
    rw [hext]
    rcases hsearch with h | ⟨e, h⟩ <;> simp [resolveTicker, h]
  have hres2 : resolveTicker
      ((extract_ticker_from_text input.data).map (fun l => String.mk l))
      env.resolverSearch = none := hres
  refine ⟨?_, ?_, ?_, ?_, ?_, ?_, ?_, rfl⟩ <;> simp [runTurn, hres, hres2]

/-- Uppercase letters are word characters. -/
theorem upper_isWord (c : Char) (h : isUpperAZ c = true) : isWordChar c = true := by
  simp [isWordChar, h]

/-- Contrapositive: a non-word character is not an uppercase letter. -/
theorem not_word_not_upper {c : Char} (h : isWordChar c = false) : isUpperAZ c = false := by
  rcases hu : isUpperAZ c
  · rfl
  · exact absurd (upper_isWord c hu) (by simp [h])

/-- Python `upper` fixes uppercase letters. -/
theorem pyUpper_id (c : Char) (h : isUpperAZ c = true) : pyUpperChar c = c := by
  have h2 : 'A' ≤ c ∧ c ≤ 'Z' := by
    simpa [isUpperAZ, Bool.and_eq_true, decide_eq_true_eq] using h
  unfold pyUpperChar
  rw [if_neg]
  intro hc
  exact absurd (lt_of_le_of_lt h2.2 (by decide)) (not_lt.mpr hc.1)

/-- Python `upper` fixes all-uppercase character lists. -/
theorem pyUpper_map_id (l : List Char) (h : l.all isUpperAZ = true) :
    l.map pyUpperChar = l := by
  induction l with
  | nil => rfl
  | cons c cs ih =>
    rw [List.all_cons, Bool.and_eq_true] at h
    rw [List.map_cons, pyUpper_id c h.1, ih h.2]

/-- A greedy attempt longer than the uppercase run fails: with the run
followed by nothing or by a non-word character, length `k + 1 > |letters|`
cannot match, and the engine backtracks to `k`. -/
theorem tryUpperRun_gt (letters post : List Char)
    (hpost : post = [] ∨ ∃ c cs, post = c :: cs ∧ isWordChar c = false)
    (k : Nat) (hk : letters.length < k + 1) :
    tryUpperRun (letters ++ post) (k + 1) = tryUpperRun (letters ++ post) k := by
  have hcond : ¬ (((letters ++ post).take (k + 1)).length = k + 1
      ∧ ((letters ++ post).take (k + 1)).all isUpperAZ = true
      ∧ boundaryAfter (k + 1) (letters ++ post) = true) := by
    rintro ⟨h1, h2, h3⟩
    rcases hpost with rfl | ⟨c, cs, rfl, hcw⟩
    · rw [List.append_nil, List.take_of_length_le (by omega)] at h1
      omega
    · rw [List.take_append_eq_append_take, List.take_of_length_le (by omega : letters.length ≤ k + 1)] at h2
      obtain ⟨m, hm⟩ : ∃ m, k + 1 - letters.length = m + 1 := ⟨k - letters.length, by omega⟩
      rw [hm, List.take_succ_cons, List.all_append, List.all_cons] at h2
      rw [Bool.and_eq_true, Bool.and_eq_true] at h2
      have hcu := h2.2.1
      rw [not_word_not_upper hcw] at hcu
      exact Bool.false_ne_true hcu
  rw [tryUpperRun, if_neg hcond]

/-- The greedy attempt of exactly the run's length succeeds and captures the
run. -/
theorem tryUpperRun_exact (letters post : List Char) (h1 : 1 ≤ letters.length)
    (hup : letters.all isUpperAZ = true)
    (hpost : post = [] ∨ ∃ c cs, post = c :: cs ∧ isWordChar c = false) :
    tryUpperRun (letters ++ post) letters.length = some letters := by
  obtain ⟨m, hm⟩ : ∃ m, letters.length = m + 1 := ⟨letters.length - 1, by omega⟩
  have htake : (letters ++ post).take letters.length = letters := List.take_left letters post
  have hbnd : boundaryAfter letters.length (letters ++ post) = true := by
    unfold boundaryAfter
    rw [List.drop_left]
    rcases hpost with rfl | ⟨c, cs, rfl, hcw⟩
    · rfl
    · simp [hcw]
  rw [hm] at htake hbnd ⊢
  rw [tryUpperRun, if_pos]
  · rw [htake]
  · refine ⟨?_, ?_, hbnd⟩
    · rw [htake, hm]
    · rw [htake]; exact hup

/-- Any starting budget at least the run's length captures exactly the run. -/
theorem tryUpperRun_from (letters post : List Char) (h1 : 1 ≤ letters.length)
    (hup : letters.all isUpperAZ = true)
    (hpost : post = [] ∨ ∃ c cs, post = c :: cs ∧ isWordChar c = false) :
    ∀ k, letters.length ≤ k → tryUpperRun (letters ++ post) k = some letters := by
  intro k
  induction k with
  | zero => intro h; exfalso; omega
  | succ k ih =>
    intro h
    rcases Nat.lt_or_ge k letters.length with hlt | hge
    · have he : letters.length = k + 1 := by omega
      rw [← he]
      exact tryUpperRun_exact letters post h1 hup hpost
    · rw [tryUpperRun_gt letters post hpost k (by omega)]
      exact ih hge

/-- The scan reaches the first `$` and returns whatever the group match at
that position produces. -/
theorem dollarSearch_hit (pre rest letters : List Char) (hpre : '$' ∉ pre)
    (hhit : tryUpperRun rest 5 = some letters) :
    dollarSearch (pre ++ '$' :: rest) = some letters := by
  induction pre with
  | nil =>
    simp only [List.nil_append, dollarSearch, if_true]
    rw [hhit]
  | cons c cs ih =>
    have hc : ¬ (c = '$') := fun h => hpre (by simp [h])
    simp only [List.cons_append, dollarSearch]
    rw [if_neg hc]
    exact ih (fun h => hpre (List.mem_cons_of_mem _ h))

/-- C4: for every text whose first `$` is followed by a run of 1–5 uppercase
letters ending at a word boundary, the extractor returns exactly those
letters, regardless of parenthesised or bare uppercase tokens elsewhere
(rule-1 precedence); in particular `"$AAPL vs TSLA"` yields `"AAPL"`. -/
theorem c4_dollar_rule :
    (∀ (pre letters post : List Char),
      '$' ∉ pre → 1 ≤ letters.length → letters.length ≤ 5 →
      letters.all isUpperAZ = true →
      (post = [] ∨ ∃ c cs, post = c :: cs ∧ isWordChar c = false) →
      extract_ticker_from_text (pre ++ '$' :: (letters ++ post)) = some letters)
  ∧ extract_ticker_from_text "$AAPL vs TSLA".toList = some "AAPL".toList := by
  constructor
  · intro pre letters post hpre h1 h5 hup hpost
    have hrun : tryUpperRun (letters ++ post) 5 = some letters :=
      tryUpperRun_from letters post h1 hup hpost 5 h5
    have hd : dollarSearch (pre ++ '$' :: (letters ++ post)) = some letters :=
      dollarSearch_hit pre (letters ++ post) letters hpre hrun
    simp only [extract_ticker_from_text, hd]
    rw [pyUpper_map_id letters hup]
  · decide

/-- Witness for C4: a `$TSLA` mention inside surrounding text. -/
theorem c4_witness :
    extract_ticker_from_text ("Check ".toList ++ '$' :: ("TSLA".toList ++ " now".toList))
      = some "TSLA".toList :=
  c4_dollar_rule.1 "Check ".toList "TSLA".toList " now".toList (by decide) (by decide)
    (by decide) (by decide) (Or.inr ⟨' ', "now".toList, rfl, by decide⟩)

/-- Witness for C2 on a concrete unresolvable turn. -/
theorem c2_witness :
    (runTurn sampleEnvNoResolve [] "just vibes today").resolved = none
  ∧ (runTurn sampleEnvNoResolve [] "just vibes today").warnings
      = ["❌ Could not resolve any stock symbol from input."]
  ∧ (runTurn sampleEnvNoResolve [] "just vibes today").marketCalls = []
  ∧ (runTurn sampleEnvNoResolve [] "just vibes today").stock_data = none
  ∧ (runTurn sampleEnvNoResolve [] "just vibes today").history_df = none
  ∧ (runTurn sampleEnvNoResolve [] "just vibes today").news_md = none
  ∧ (runTurn sampleEnvNoResolve [] "just vibes today").sentimentCalled = false
  ∧ (runTurn sampleEnvNoResolve [] "just vibes today").llmCalls = 1 :=
  c2_resolution_failure_frame sampleEnvNoResolve [] "just vibes today" (by decide) (Or.inl rfl)

end StockGPT
